import Mathlib

set_option maxRecDepth 8192

/-!
Shallow embedding of `src/software/macropad_plus.c` (MacroPad Plus firmware,
`main` function): the boot sequencer and the polling/dispatch loop over five
debounced input channels (keys 1-3, encoder channel A, encoder switch), plus
the encoder direction decoder and the watchdog calls.

Raw pin levels (`PIN_read`) are Booleans; the firmware compares each channel
against its stored `last` bit using the negated read (`!PIN_read(...)`), so
the logical "active/pressed" level of a channel is raw = false (active-low).
External calls (HID actions, NeoPixel writes, delays, watchdog, bootloader
jump) are recorded as trace events in program order.
-/

namespace Macropad

/-- HID action functions bound to transitions, one constructor per
`KEY*_PRESSED/RELEASED`, `ENC_CW_ACTION`, `ENC_CCW_ACTION`,
`ENC_SW_PRESSED/RELEASED` macro in the source. -/
inductive Action where
  | key1Pressed
  | key1Released
  | key2Pressed
  | key2Released
  | key3Pressed
  | key3Released
  | encCW
  | encCCW
  | encSWPressed
  | encSWReleased
deriving DecidableEq, Fintype

/-- Events emitted by one main-loop iteration, in program order:
a write to a channel's `last` bit (`setLast chan v`, channels numbered
1 = key1, 2 = key2, 3 = key3, 4 = encoder A, 5 = encoder switch),
an invoked action macro, `DLY_ms`, and `WDT_reset`. -/
inductive Ev where
  | act (a : Action)
  | setLast (chan : Nat) (v : Bool)
  | delay (ms : Nat)
  | wdtReset
deriving DecidableEq

/-- Raw `PIN_read` levels of the six monitored pins during one loop
iteration (PIN_KEY1, PIN_KEY2, PIN_KEY3, PIN_ENC_A, PIN_ENC_B, PIN_ENC_SW). -/
structure Pins where
  rawKey1 : Bool
  rawKey2 : Bool
  rawKey3 : Bool
  rawEncA : Bool
  rawEncB : Bool
  rawEncSW : Bool
deriving DecidableEq, Fintype

/-- The five `__bit ...last` variables of `main`. -/
structure LoopState where
  key1last : Bool
  key2last : Bool
  key3last : Bool
  encAlast : Bool
  encSWlast : Bool
deriving DecidableEq, Fintype

/-- `main` initializes all five `last` bits to 0. -/
def initState : LoopState :=
  { key1last := false, key2last := false, key3last := false,
    encAlast := false, encSWlast := false }

/-- "Handle key 1" block: `if(!PIN_read(PIN_KEY1) != key1last) { key1last =
!key1last; if(key1last) KEY1_PRESSED(); else KEY1_RELEASED(); }`. -/
def handleKey1 (raw : Bool) (s : LoopState) : LoopState × List Ev :=
  if (!raw) ≠ s.key1last then
    let new := !s.key1last
    ({ s with key1last := new },
     [Ev.setLast 1 new, Ev.act (if new then Action.key1Pressed else Action.key1Released)])
  else (s, [])

/-- "Handle key 2" block of the loop body. -/
def handleKey2 (raw : Bool) (s : LoopState) : LoopState × List Ev :=
  if (!raw) ≠ s.key2last then
    let new := !s.key2last
    ({ s with key2last := new },
     [Ev.setLast 2 new, Ev.act (if new then Action.key2Pressed else Action.key2Released)])
  else (s, [])

/-- "Handle key 3" block of the loop body. -/
def handleKey3 (raw : Bool) (s : LoopState) : LoopState × List Ev :=
  if (!raw) ≠ s.key3last then
    let new := !s.key3last
    ({ s with key3last := new },
     [Ev.setLast 3 new, Ev.act (if new then Action.key3Pressed else Action.key3Released)])
  else (s, [])

/-- "Handle rotary encoder" block: `if(!PIN_read(PIN_ENC_A) != encAlast) {
encAlast = !encAlast; if(encAlast) { if(PIN_read(PIN_ENC_B)) ENC_CW_ACTION();
else ENC_CCW_ACTION(); } }`. Note that the direction test uses the raw
(un-negated) reading of channel B. -/
def handleEnc (rawA rawB : Bool) (s : LoopState) : LoopState × List Ev :=
  if (!rawA) ≠ s.encAlast then
    let new := !s.encAlast
    ({ s with encAlast := new },
     Ev.setLast 4 new ::
       (if new then [Ev.act (if rawB then Action.encCW else Action.encCCW)] else []))
  else (s, [])

/-- "Handle encoder switch" block of the loop body. -/
def handleEncSW (raw : Bool) (s : LoopState) : LoopState × List Ev :=
  if (!raw) ≠ s.encSWlast then
    let new := !s.encSWlast
    ({ s with encSWlast := new },
     [Ev.setLast 5 new, Ev.act (if new then Action.encSWPressed else Action.encSWReleased)])
  else (s, [])

/-- One full iteration of `while(1)`: the five handler blocks in source
order, then `DLY_ms(2)` and `WDT_reset()`. -/
def loopIter (p : Pins) (s : LoopState) : LoopState × List Ev :=
  let r1 := handleKey1 p.rawKey1 s
  let r2 := handleKey2 p.rawKey2 r1.1
  let r3 := handleKey3 p.rawKey3 r2.1
  let r4 := handleEnc p.rawEncA p.rawEncB r3.1
  let r5 := handleEncSW p.rawEncSW r4.1
  (r5.1, r1.2 ++ r2.2 ++ r3.2 ++ r4.2 ++ r5.2 ++ [Ev.delay 2, Ev.wdtReset])

/-- State after one loop iteration. -/
def iterState (p : Pins) (s : LoopState) : LoopState := (loopIter p s).1

/-- Event trace of one loop iteration. -/
def iterEvs (p : Pins) (s : LoopState) : List Ev := (loopIter p s).2

/-- The actions invoked during a trace, in order. -/
def acts (evs : List Ev) : List Action :=
  evs.filterMap (fun e => match e with | Ev.act a => some a | _ => none)

/-- The input channel an action is bound to (1 = key1, 2 = key2, 3 = key3,
4 = encoder rotation, 5 = encoder switch). -/
def chanOf : Action → Nat
  | Action.key1Pressed => 1
  | Action.key1Released => 1
  | Action.key2Pressed => 2
  | Action.key2Released => 2
  | Action.key3Pressed => 3
  | Action.key3Released => 3
  | Action.encCW => 4
  | Action.encCCW => 4
  | Action.encSWPressed => 5
  | Action.encSWReleased => 5

/-- The actions of channel `n` invoked during a trace, in order. -/
def chanActs (n : Nat) (evs : List Ev) : List Action :=
  (acts evs).filter (fun a => chanOf a == n)

/-- `actsFollowSetLast prev evs = true` iff every `act` event in `evs` is
immediately preceded by a `setLast` write to its own channel (`prev` carries
the channel of an immediately preceding `setLast`, if any). -/
def actsFollowSetLast : Option Nat → List Ev → Bool
  | _, [] => true
  | prev, Ev.act a :: rest => (prev == some (chanOf a)) && actsFollowSetLast none rest
  | _, Ev.setLast c _ :: rest => actsFollowSetLast (some c) rest
  | _, _ :: rest => actsFollowSetLast none rest

/-- External calls made by `main` before the `while(1)` loop, in program
order: NeoPixel driver calls, clock configuration, delays, the single
`PIN_read(PIN_ENC_SW)` sample (with its result), the bootloader jump,
HID initialization, and `WDT_start`.  `enterLoop` marks falling through
into the main loop. -/
inductive BootEv where
  | neoInit
  | clkConfig
  | dlyMs (n : Nat)
  | neoClearAll
  | readEncSW (v : Bool)
  | neoSendByte (b : Nat)
  | bootNow
  | neoWriteColor (i r g b : Nat)
  | neoUpdate
  | hidInit
  | wdtStart
  | enterLoop
deriving DecidableEq

/-- The startup sequence of `main` before the first loop iteration, as a
function of the raw `PIN_read(PIN_ENC_SW)` level at the sampling instant
and of the NeoPixel count `NEO_COUNT` (taken from the configuration
header): `NEO_init(); CLK_config(); DLY_ms(10); NEO_clearAll(); if
(!PIN_read(PIN_ENC_SW)) { for(i=3*NEO_COUNT;i;i--) NEO_sendByte(127);
BOOT_now(); }` else the pan-flag pattern, `NEO_update(); HID_init();
DLY_ms(500); WDT_start();` and the loop is entered. -/
def bootTrace (rawSW : Bool) (neoCount : Nat) : List BootEv :=
  [BootEv.neoInit, BootEv.clkConfig, BootEv.dlyMs 10, BootEv.neoClearAll,
   BootEv.readEncSW rawSW] ++
  (if !rawSW then
    List.replicate (3 * neoCount) (BootEv.neoSendByte 127) ++ [BootEv.bootNow]
  else
    [BootEv.neoWriteColor 0 255 33 140, BootEv.neoWriteColor 1 255 216 0,
     BootEv.neoWriteColor 2 33 177 255, BootEv.neoUpdate, BootEv.hidInit,
     BootEv.dlyMs 500, BootEv.wdtStart, BootEv.enterLoop])

/-- The fixed normal-mode startup trace (encoder switch not pressed). -/
def normalBootList : List BootEv :=
  [BootEv.neoInit, BootEv.clkConfig, BootEv.dlyMs 10, BootEv.neoClearAll,
   BootEv.readEncSW true,
   BootEv.neoWriteColor 0 255 33 140, BootEv.neoWriteColor 1 255 216 0,
   BootEv.neoWriteColor 2 33 177 255, BootEv.neoUpdate, BootEv.hidInit,
   BootEv.dlyMs 500, BootEv.wdtStart, BootEv.enterLoop]

theorem bootTrace_true (n : Nat) : bootTrace true n = normalBootList := rfl

theorem bootTrace_false (n : Nat) :
    bootTrace false n =
      [BootEv.neoInit, BootEv.clkConfig, BootEv.dlyMs 10, BootEv.neoClearAll,
       BootEv.readEncSW false] ++
      List.replicate (3 * n) (BootEv.neoSendByte 127) ++ [BootEv.bootNow] := by
  simp [bootTrace]

theorem notMem_sendBytes (a : BootEv) (m : Nat) (h : ∀ b, a ≠ BootEv.neoSendByte b) :
    a ∉ List.replicate m (BootEv.neoSendByte 127) := by
  intro hmem
  exact h 127 (List.eq_of_mem_replicate hmem)

/-- Claim C1, counterexample: in an iteration where channel A shows a `Rose`
transition (stored state flips from inactive to active) while channel B is
logically *active* (raw read `false` under the active-low convention), the
code dispatches `ENC_CCW_ACTION`, not the `ClockwiseTick` the claim
requires. -/
theorem C1_counterexample :
    (!(⟨true, true, true, false, false, true⟩ : Pins).rawEncB) = true ∧
    initState.encAlast = false ∧
    (iterState ⟨true, true, true, false, false, true⟩ initState).encAlast = true ∧
    chanActs 4 (iterEvs ⟨true, true, true, false, false, true⟩ initState) =
      [Action.encCCW] ∧
    chanActs 4 (iterEvs ⟨true, true, true, false, false, true⟩ initState) ≠
      [Action.encCW] := by decide

/-- Claim C1, amended: on a `Rose` transition of channel A (stored state
inactive and raw A low), exactly one rotation action is dispatched, chosen
by channel B's *raw* level sampled at that instant: raw high (logically
inactive) gives `ENC_CW_ACTION`, raw low (logically active) gives
`ENC_CCW_ACTION`; in every other case (including a `Fell` of channel A) no
rotation action is dispatched, and channel A's stored state always ends at
the sampled logical level. -/
theorem C1_rose_direction :
    ∀ (p : Pins) (s : LoopState),
      chanActs 4 (iterEvs p s) =
        (if s.encAlast = false ∧ p.rawEncA = false then
          [if p.rawEncB then Action.encCW else Action.encCCW]
        else []) ∧
      (iterState p s).encAlast = !p.rawEncA := by decide

/-- Claim C2: for each button channel (keys 1-3 and the encoder switch), if
the sampled logical level (`!PIN_read`) differs from the stored `last`
bit, that channel's `last` bit is set to the new level and exactly one
action is invoked for it, the pressed action if the new level is active,
the released action if inactive. -/
theorem C2_button_transitions :
    ∀ (p : Pins) (s : LoopState),
      ((!p.rawKey1) ≠ s.key1last →
        (iterState p s).key1last = !p.rawKey1 ∧
        chanActs 1 (iterEvs p s) =
          [if !p.rawKey1 then Action.key1Pressed else Action.key1Released]) ∧
      ((!p.rawKey2) ≠ s.key2last →
        (iterState p s).key2last = !p.rawKey2 ∧
        chanActs 2 (iterEvs p s) =
          [if !p.rawKey2 then Action.key2Pressed else Action.key2Released]) ∧
      ((!p.rawKey3) ≠ s.key3last →
        (iterState p s).key3last = !p.rawKey3 ∧
        chanActs 3 (iterEvs p s) =
          [if !p.rawKey3 then Action.key3Pressed else Action.key3Released]) ∧
      ((!p.rawEncSW) ≠ s.encSWlast →
        (iterState p s).encSWlast = !p.rawEncSW ∧
        chanActs 5 (iterEvs p s) =
          [if !p.rawEncSW then Action.encSWPressed else Action.encSWReleased]) := by
  decide

/-- Witness for C2 at a concrete input: all four button channels sample raw
low from the all-inactive state, so each flips to active and dispatches its
pressed action. -/
theorem C2_button_transitions_witness :
    (iterState ⟨false, false, false, true, true, false⟩ initState).key1last = true ∧
    chanActs 1 (iterEvs ⟨false, false, false, true, true, false⟩ initState) =
      [Action.key1Pressed] ∧
    (iterState ⟨false, false, false, true, true, false⟩ initState).key2last = true ∧
    chanActs 2 (iterEvs ⟨false, false, false, true, true, false⟩ initState) =
      [Action.key2Pressed] ∧
    (iterState ⟨false, false, false, true, true, false⟩ initState).key3last = true ∧
    chanActs 3 (iterEvs ⟨false, false, false, true, true, false⟩ initState) =
      [Action.key3Pressed] ∧
    (iterState ⟨false, false, false, true, true, false⟩ initState).encSWlast = true ∧
    chanActs 5 (iterEvs ⟨false, false, false, true, true, false⟩ initState) =
      [Action.encSWPressed] := by
  have h := C2_button_transitions ⟨false, false, false, true, true, false⟩ initState
  have h1 := h.1 (by decide)
  have h2 := h.2.1 (by decide)
  have h3 := h.2.2.1 (by decide)
  have h5 := h.2.2.2 (by decide)
  exact ⟨h1.1, h1.2, h2.1, h2.2, h3.1, h3.2, h5.1, h5.2⟩

/-- Claim C3: the boot sequencer samples the encoder switch exactly once
before the loop; raw low (active) leads to `3*NEO_COUNT` bytes of 127 sent
to the pixels and `BOOT_now()`, with `HID_init()` never called; raw high
(inactive) produces exactly the fixed call sequence pan-flag colors on
pixels 0-2, `NEO_update()`, one `HID_init()`, `DLY_ms(500)`, `WDT_start()`,
loop entry, with `BOOT_now()` never called. -/
theorem C3_boot_sequencer :
    ∀ n : Nat,
      (bootTrace false n =
          [BootEv.neoInit, BootEv.clkConfig, BootEv.dlyMs 10, BootEv.neoClearAll,
           BootEv.readEncSW false] ++
          List.replicate (3 * n) (BootEv.neoSendByte 127) ++ [BootEv.bootNow] ∧
        BootEv.hidInit ∉ bootTrace false n ∧
        (bootTrace false n).count (BootEv.readEncSW false) = 1) ∧
      (bootTrace true n = normalBootList ∧
        (bootTrace true n).count BootEv.hidInit = 1 ∧
        BootEv.bootNow ∉ bootTrace true n ∧
        (bootTrace true n).count (BootEv.readEncSW true) = 1) := by
  intro n
  have hrep1 := notMem_sendBytes BootEv.hidInit (3 * n) (by intro b h; cases h)
  have hrep2 := notMem_sendBytes (BootEv.readEncSW false) (3 * n) (by intro b h; cases h)
  refine ⟨⟨bootTrace_false n, ?_, ?_⟩, bootTrace_true n, by rw [bootTrace_true]; decide,
    by rw [bootTrace_true]; decide, by rw [bootTrace_true]; decide⟩
  · rw [bootTrace_false]
    simp only [List.mem_append, List.mem_cons, List.not_mem_nil]
    push_neg
    refine ⟨⟨by decide, hrep1⟩, by decide⟩
  · rw [bootTrace_false]
    rw [List.count_append, List.count_append]
    rw [List.count_eq_zero.mpr hrep2]
    decide

/-- Claim C4: at the end of every loop iteration each of the five `last`
bits equals the logical level (`!PIN_read`) sampled for its channel during
that iteration, whether or not a transition was dispatched. -/
theorem C4_state_tracks_sample :
    ∀ (p : Pins) (s : LoopState),
      iterState p s =
        ⟨!p.rawKey1, !p.rawKey2, !p.rawKey3, !p.rawEncA, !p.rawEncSW⟩ := by decide

/-- Claim C5: within one iteration, dispatched actions are strictly ordered
by channel (key 1, key 2, key 3, encoder rotation, encoder switch); in the
scenario where keys 1 and 3 and the encoder switch transition together the
actions fire in exactly that order; and an iteration is deterministic in
its start state and sampled inputs. -/
theorem C5_dispatch_order :
    (∀ (p : Pins) (s : LoopState),
      (acts (iterEvs p s)).Pairwise (fun a b => chanOf a < chanOf b)) ∧
    acts (iterEvs ⟨false, true, false, true, true, false⟩ initState) =
      [Action.key1Pressed, Action.key3Pressed, Action.encSWPressed] ∧
    (∀ (p q : Pins) (s t : LoopState), p = q → s = t → loopIter p s = loopIter q t) := by
  refine ⟨by decide, by decide, ?_⟩
  intro p q s t hp hs
  rw [hp, hs]

/-- Witness for C5's determinism clause at a concrete input. -/
theorem C5_dispatch_order_witness :
    loopIter ⟨false, true, false, true, true, false⟩ initState =
      loopIter ⟨false, true, false, true, true, false⟩ initState :=
  C5_dispatch_order.2.2 ⟨false, true, false, true, true, false⟩
    ⟨false, true, false, true, true, false⟩ initState initState rfl rfl

/-- Claim C6: every loop iteration contains exactly one `WDT_reset`, as its
final event, right after the `DLY_ms(2)` that follows the five channel
blocks; and in normal mode `WDT_start` is called exactly once, after
`HID_init` and before the loop is entered. -/
theorem C6_watchdog :
    (∀ (p : Pins) (s : LoopState),
      (iterEvs p s).count Ev.wdtReset = 1 ∧
      (iterEvs p s).reverse.take 2 = [Ev.wdtReset, Ev.delay 2]) ∧
    (∀ n : Nat,
      (bootTrace true n).count BootEv.wdtStart = 1 ∧
      normalBootList.indexOf BootEv.hidInit < normalBootList.indexOf BootEv.wdtStart ∧
      (bootTrace true n).reverse.take 2 = [BootEv.enterLoop, BootEv.wdtStart]) := by
  refine ⟨by decide, ?_⟩
  intro n
  rw [bootTrace_true]
  refine ⟨by decide, by decide, by decide⟩

/-- Claim C7: for every channel, if the sampled logical level equals the
stored `last` bit, that channel dispatches no action and its `last` bit is
unchanged by the iteration. -/
theorem C7_no_change_no_action :
    ∀ (p : Pins) (s : LoopState),
      ((!p.rawKey1) = s.key1last →
        (iterState p s).key1last = s.key1last ∧ chanActs 1 (iterEvs p s) = []) ∧
      ((!p.rawKey2) = s.key2last →
        (iterState p s).key2last = s.key2last ∧ chanActs 2 (iterEvs p s) = []) ∧
      ((!p.rawKey3) = s.key3last →
        (iterState p s).key3last = s.key3last ∧ chanActs 3 (iterEvs p s) = []) ∧
      ((!p.rawEncA) = s.encAlast →
        (iterState p s).encAlast = s.encAlast ∧ chanActs 4 (iterEvs p s) = []) ∧
      ((!p.rawEncSW) = s.encSWlast →
        (iterState p s).encSWlast = s.encSWlast ∧ chanActs 5 (iterEvs p s) = []) := by
  decide

/-- Witness for C7 at a concrete input: all pins read raw high from the
all-inactive state, so no channel changes state or dispatches anything. -/
theorem C7_no_change_no_action_witness :
    (iterState ⟨true, true, true, true, true, true⟩ initState).key1last =
      initState.key1last ∧
    chanActs 1 (iterEvs ⟨true, true, true, true, true, true⟩ initState) = [] ∧
    (iterState ⟨true, true, true, true, true, true⟩ initState).encAlast =
      initState.encAlast ∧
    chanActs 4 (iterEvs ⟨true, true, true, true, true, true⟩ initState) = [] ∧
    (iterState ⟨true, true, true, true, true, true⟩ initState).encSWlast =
      initState.encSWlast ∧
    chanActs 5 (iterEvs ⟨true, true, true, true, true, true⟩ initState) = [] := by
  have h := C7_no_change_no_action ⟨true, true, true, true, true, true⟩ initState
  have h1 := h.1 (by decide)
  have h4 := h.2.2.2.1 (by decide)
  have h5 := h.2.2.2.2 (by decide)
  exact ⟨h1.1, h1.2, h4.1, h4.2, h5.1, h5.2⟩

/-- Claim C8: every monitored channel is active-low.  A channel's pressed
action is dispatched exactly when its raw pin reads low while the stored
state was inactive; a rotation action is dispatched exactly when channel
A's raw pin reads low while its stored state was inactive; and the
boot-time bootloader branch is taken exactly when the encoder-switch pin
reads raw low. -/
theorem C8_active_low :
    (∀ (p : Pins) (s : LoopState),
      (chanActs 1 (iterEvs p s) = [Action.key1Pressed] ↔
        p.rawKey1 = false ∧ s.key1last = false) ∧
      (chanActs 2 (iterEvs p s) = [Action.key2Pressed] ↔
        p.rawKey2 = false ∧ s.key2last = false) ∧
      (chanActs 3 (iterEvs p s) = [Action.key3Pressed] ↔
        p.rawKey3 = false ∧ s.key3last = false) ∧
      (chanActs 5 (iterEvs p s) = [Action.encSWPressed] ↔
        p.rawEncSW = false ∧ s.encSWlast = false) ∧
      (chanActs 4 (iterEvs p s) ≠ [] ↔
        p.rawEncA = false ∧ s.encAlast = false)) ∧
    (∀ (sw : Bool) (n : Nat), BootEv.bootNow ∈ bootTrace sw n ↔ sw = false) := by
  refine ⟨by decide, ?_⟩
  intro sw n
  cases sw
  · rw [bootTrace_false]
    simp
  · rw [bootTrace_true]
    decide

/-- Claim C9: within one iteration every dispatched action is immediately
preceded by the `setLast` write of its own channel (the stored state is
updated before the bound action runs), and each channel's handler block
leaves every other channel's `last` bit untouched. -/
theorem C9_update_order_and_frame :
    (∀ (p : Pins) (s : LoopState), actsFollowSetLast none (iterEvs p s) = true) ∧
    (∀ (a b : Bool) (s : LoopState),
      ((handleKey1 a s).1.key2last = s.key2last ∧
        (handleKey1 a s).1.key3last = s.key3last ∧
        (handleKey1 a s).1.encAlast = s.encAlast ∧
        (handleKey1 a s).1.encSWlast = s.encSWlast) ∧
      ((handleKey2 a s).1.key1last = s.key1last ∧
        (handleKey2 a s).1.key3last = s.key3last ∧
        (handleKey2 a s).1.encAlast = s.encAlast ∧
        (handleKey2 a s).1.encSWlast = s.encSWlast) ∧
      ((handleKey3 a s).1.key1last = s.key1last ∧
        (handleKey3 a s).1.key2last = s.key2last ∧
        (handleKey3 a s).1.encAlast = s.encAlast ∧
        (handleKey3 a s).1.encSWlast = s.encSWlast) ∧
      ((handleEnc a b s).1.key1last = s.key1last ∧
        (handleEnc a b s).1.key2last = s.key2last ∧
        (handleEnc a b s).1.key3last = s.key3last ∧
        (handleEnc a b s).1.encSWlast = s.encSWlast) ∧
      ((handleEncSW a s).1.key1last = s.key1last ∧
        (handleEncSW a s).1.key2last = s.key2last ∧
        (handleEncSW a s).1.key3last = s.key3last ∧
        (handleEncSW a s).1.encAlast = s.encAlast)) := by
  exact ⟨by decide, by decide⟩

/-- Claim C10: all five `last` bits start at 0 (inactive), so any channel
whose pin already reads raw low (logically active) at the first iteration
dispatches exactly one pressed action, or exactly one rotation action for
the encoder. -/
theorem C10_initial_state :
    ∀ p : Pins,
      initState.key1last = false ∧ initState.key2last = false ∧
      initState.key3last = false ∧ initState.encAlast = false ∧
      initState.encSWlast = false ∧
      (p.rawKey1 = false → chanActs 1 (iterEvs p initState) = [Action.key1Pressed]) ∧
      (p.rawKey2 = false → chanActs 2 (iterEvs p initState) = [Action.key2Pressed]) ∧
      (p.rawKey3 = false → chanActs 3 (iterEvs p initState) = [Action.key3Pressed]) ∧
      (p.rawEncA = false → chanActs 4 (iterEvs p initState) =
        [if p.rawEncB then Action.encCW else Action.encCCW]) ∧
      (p.rawEncSW = false → chanActs 5 (iterEvs p initState) = [Action.encSWPressed]) := by
  decide

/-- Witness for C10 at a concrete input: every pin reads raw low at the
first iteration, so every channel dispatches its pressed (or rotation)
action. -/
theorem C10_initial_state_witness :
    chanActs 1 (iterEvs ⟨false, false, false, false, false, false⟩ initState) =
      [Action.key1Pressed] ∧
    chanActs 4 (iterEvs ⟨false, false, false, false, false, false⟩ initState) =
      [Action.encCCW] ∧
    chanActs 5 (iterEvs ⟨false, false, false, false, false, false⟩ initState) =
      [Action.encSWPressed] := by
  have h := C10_initial_state ⟨false, false, false, false, false, false⟩
  exact ⟨h.2.2.2.2.2.1 rfl, h.2.2.2.2.2.2.2.2.1 rfl, h.2.2.2.2.2.2.2.2.2 rfl⟩

end Macropad
